import Mathlib

/-!
Shallow embedding of the coordinate-geometry core of the sportypy repository:
the shape generators of `sportypy/helpers/coordinate_ops/create_shapes.py`,
the transform operators of `sportypy/helpers/coordinate_ops/transformations.py`,
the three-point-line feature of `sportypy/features/basketball_features.py`,
the angle derivations of `sportypy/surface_features/ncaa_bb.py` and
`sportypy/surface_features/wnba.py`, and the plot-extent loop of the surface
`draw` methods in `sportypy/surfaces/{hockey,basketball}.py`.

A pandas data frame with an `x` and a `y` column is embedded as a pair of
lists (column representation).  Exact rational or real arithmetic stands in
for Python floats; fallible Python operations (`math.asin` out of domain,
float division by zero, lookup of an unbound name) are embedded in
`Except String`.
-/

/-- A pandas data frame holding an `x` column and a `y` column, as produced
and consumed by every geometry function in the repository. -/
structure DataFrame (α : Type) where
  x : List α
  y : List α
  deriving DecidableEq, Repr

/-- Concatenation of data frames, as done by `pd.concat` / `DataFrame.append`:
the columns are concatenated entrywise. -/
def DataFrame.append {α : Type} (a b : DataFrame α) : DataFrame α :=
  ⟨a.x ++ b.x, a.y ++ b.y⟩

/-- Python float division: raises `ZeroDivisionError` on a zero denominator,
otherwise returns the quotient. -/
def pyDiv (a b : ℚ) : Except String ℚ :=
  if b = 0 then .error "ZeroDivisionError: float division by zero" else .ok (a / b)

/-- Embeds Python `str.lower()` (ASCII range, which covers every direction
string the repository uses): each character is lower-cased. -/
def pyLower (s : String) : String := ⟨s.data.map Char.toLower⟩

/-- Python name lookup in a local scope: `NameError` when the name is unbound.
Used to embed source lines that reference identifiers that are never assigned
(as `create_shapes.diamond` does). -/
def localVar {α : Type} (scope : List (String × α)) (n : String) : Except String α :=
  match scope.find? (fun p => p.1 == n) with
  | some p => .ok p.2
  | none => .error ("NameError: name " ++ n ++ " is not defined")

namespace CreateShapes

/-- Embeds `create_shapes.rectangle(x_min, x_max, y_min, y_max)`: the closed
five-point bounding path of a rectangle, starting and ending at
`(x_min, y_min)`. -/
def rectangle (x_min x_max y_min y_max : ℚ) : DataFrame ℚ :=
  ⟨[x_min, x_max, x_max, x_min, x_min],
   [y_min, y_min, y_max, y_max, y_min]⟩

/-- Embeds `create_shapes.square(side_length, center)`: the closed five-point
bounding path of an axis-aligned square. -/
def square (side_length : ℚ) (center : ℚ × ℚ) : DataFrame ℚ :=
  ⟨[center.1 - side_length / 2,
    center.1 + side_length / 2,
    center.1 + side_length / 2,
    center.1 - side_length / 2,
    center.1 - side_length / 2],
   [center.2 - side_length / 2,
    center.2 - side_length / 2,
    center.2 + side_length / 2,
    center.2 + side_length / 2,
    center.2 - side_length / 2]⟩

/-- Embeds `create_shapes.diamond(height, width, center)`.  The body of the
source function never uses `height` or `width`: every coordinate expression
reads the name `side_length`, which is bound nowhere in the function (it is a
parameter of `square`, not of `diamond`), and the final statement returns the
equally unbound name `square_pts`.  Python therefore raises
`NameError: name 'side_length' is not defined` on the first coordinate
expression of the `pd.DataFrame` call. -/
def diamond (height width : ℚ) (center : ℚ × ℚ) : Except String (DataFrame ℚ) := do
  let scalars : List (String × ℚ) := [("height", height), ("width", width)]
  let side_length ← localVar scalars "side_length"
  let diamond_pts : DataFrame ℚ :=
    ⟨[center.1 - side_length / 2,
      center.1 + side_length / 2,
      center.1 + side_length / 2,
      center.1 - side_length / 2,
      center.1 - side_length / 2],
     [center.1 - side_length / 2,
      center.1 - side_length / 2,
      center.1 + side_length / 2,
      center.1 + side_length / 2,
      center.1 - side_length / 2]⟩
  let frames : List (String × DataFrame ℚ) := [("diamond_pts", diamond_pts)]
  let square_pts ← localVar frames "square_pts"
  pure square_pts

/-- The data frame that `test_create_shapes.test_diamond` asserts
`diamond(height = 1, width = 1)` must equal: the closed unit-diamond path. -/
def testDiamondExpected : DataFrame ℚ :=
  ⟨[-1/2, 0, 1/2, 0, -1/2],
   [0, -1/2, 0, 1/2, 0]⟩

end CreateShapes

namespace Transformations

/-- Embeds `transformations.reflect(df, over_x, over_y)`: the source copies the
frame, then (when `over_y`) rebuilds it with the `x` column negated, then
(when `over_x`) rebuilds it with the `y` column negated. -/
def reflect (df : DataFrame ℚ) (over_x over_y : Bool) : DataFrame ℚ :=
  let reflected := df
  let reflected := if over_y then ⟨reflected.x.map (fun t => -1 * t), reflected.y⟩
                   else reflected
  let reflected := if over_x then ⟨reflected.x, reflected.y.map (fun t => -1 * t)⟩
                   else reflected
  reflected

/-- Embeds `transformations.translate(df, translate_x, translate_y)`. -/
def translate (df : DataFrame ℚ) (translate_x translate_y : ℚ) : DataFrame ℚ :=
  ⟨df.x.map (fun t => t + translate_x), df.y.map (fun t => t + translate_y)⟩

/-- Embeds `transformations.scale(df, scale_factor)`. -/
def scale (df : DataFrame ℚ) (scale_factor : ℚ) : DataFrame ℚ :=
  ⟨df.x.map (fun t => scale_factor * t), df.y.map (fun t => scale_factor * t)⟩

end Transformations

namespace SurfaceDraw

/-- A feature as seen by the extent bookkeeping of the surface `draw` loops:
its visibility, whether it is the excluded boundary kind (`hockey.Boards` for
rinks, `basketball.CourtConstraint` for courts), and the data frame returned
by `feature._translate_feature()`. -/
structure ResolvedFeature where
  visible : Bool
  excludedKind : Bool
  df : DataFrame ℚ
  deriving DecidableEq, Repr

/-- The running-limit update of the surface `draw` methods, exactly as written
in `hockey.py` lines 969-983 and `basketball.py` lines 878-892: when a limit
pair is already stored, the new pair is
`[min(old[0], lo), max(old[0], hi)]` — the second component reads index `0`
(the stored minimum), not index `1`. -/
def updateLim (cur : Option (ℚ × ℚ)) (lo hi : ℚ) : Option (ℚ × ℚ) :=
  match cur with
  | none => some (lo, hi)
  | some c => some (min c.1 lo, max c.1 hi)

/-- One iteration of the feature loop of `draw`: a visible feature that is not
of the excluded kind contributes the min/max of its `x` and `y` columns; a
feature whose columns yield no extrema (the `except TypeError: pass` branch)
leaves the state unchanged. -/
def drawStep (st : Option (ℚ × ℚ) × Option (ℚ × ℚ)) (f : ResolvedFeature) :
    Option (ℚ × ℚ) × Option (ℚ × ℚ) :=
  if f.visible && !f.excludedKind then
    match f.df.x.min?, f.df.x.max?, f.df.y.min?, f.df.y.max? with
    | some xlo, some xhi, some ylo, some yhi =>
        (updateLim st.1 xlo xhi, updateLim st.2 ylo yhi)
    | _, _, _, _ => st
  else st

/-- The whole feature loop of `draw`, folding `drawStep` over the feature list
from the initial `self._feature_xlim = self._feature_ylim = None`. -/
def drawExtents (fs : List ResolvedFeature) :
    Option (ℚ × ℚ) × Option (ℚ × ℚ) :=
  fs.foldl drawStep (none, none)

/-- The features a surface's extent bookkeeping considers: visible and not of
the excluded boundary kind. -/
def counted (f : ResolvedFeature) : Bool :=
  f.visible && !f.excludedKind

/-- Modelled from the spec: the extent the specification asks for, "the
running min/max over all visible, non-constraint features' x and y values" —
the least minimum and the greatest maximum of the `x` columns over all
counted features. -/
def specXlim (fs : List ResolvedFeature) : Option (ℚ × ℚ) :=
  match ((fs.filter counted).filterMap (fun f => f.df.x.min?)).min?,
        ((fs.filter counted).filterMap (fun f => f.df.x.max?)).max? with
  | some lo, some hi => some (lo, hi)
  | _, _ => none

/-- A two-feature surface on which the stored maximum goes wrong: the first
feature spans x ∈ [0, 10], the second x ∈ [0, 5]; both span y ∈ [0, 1], both
are visible and neither is the excluded kind. -/
def demoFeatures : List ResolvedFeature :=
  [⟨true, false, ⟨[0, 10], [0, 1]⟩⟩,
   ⟨true, false, ⟨[0, 5], [0, 1]⟩⟩]

end SurfaceDraw

/-- Embeds `np.linspace(a, b, n)` for `n ≥ 2`: `n` evenly spaced values from
`a` to `b`, both endpoints included, the `i`-th being `a + i·(b-a)/(n-1)`. -/
noncomputable def linspace (a b : ℝ) (n : ℕ) : List ℝ :=
  (List.range n).map (fun i : ℕ => a + (i : ℝ) * ((b - a) / ((n : ℝ) - 1)))

/-- Embeds Python `math.asin`: raises `ValueError: math domain error` when the
argument lies outside `[-1, 1]`, otherwise returns the inverse sine.  The
argument is a rational (Python floats are rationals), so the domain check is
decidable; the result is the real inverse sine. -/
noncomputable def pyAsin (q : ℚ) : Except String ℝ :=
  if |q| ≤ 1 then .ok (Real.arcsin (q : ℝ)) else .error "ValueError: math domain error"

namespace CreateShapes

/-- Embeds `create_shapes.circle(center, npoints, d, start, end)`: `npoints`
points at angles `np.linspace(start*pi, end*pi, npoints)`, each mapped to
`(cx + (d/2)·cos θ, cy + (d/2)·sin θ)`. -/
noncomputable def circle (center : ℝ × ℝ) (npoints : ℕ) (d start stop : ℝ) :
    DataFrame ℝ :=
  let pts := linspace (start * Real.pi) (stop * Real.pi) npoints
  ⟨pts.map (fun t => center.1 + (d / 2) * Real.cos t),
   pts.map (fun t => center.2 + (d / 2) * Real.sin t)⟩

end CreateShapes

namespace Transformations

/-- The recognized counterclockwise direction strings of
`transformations.rotate`. -/
def ccwNames : List String := ["ccw", "counter", "counterclockwise"]

/-- Embeds `transformations.rotate(df, rotation_dir, angle)`: the angle (a
fraction of π) is negated when the lower-cased direction string is not a
recognized counterclockwise name, then the rotation matrix for
`theta = angle * pi` is applied entrywise, both rows reading the original
columns. -/
noncomputable def rotate (df : DataFrame ℝ) (rotation_dir : String) (angle : ℝ) :
    DataFrame ℝ :=
  let angle := if pyLower rotation_dir ∉ ccwNames then -angle else angle
  let theta := angle * Real.pi
  ⟨List.zipWith (fun a b => a * Real.cos theta - b * Real.sin theta) df.x df.y,
   List.zipWith (fun a b => a * Real.sin theta + b * Real.cos theta) df.x df.y⟩

end Transformations

namespace PyHeap

/-- A Python object store for data frames: cell `i` of the list is the frame
object bound to reference `i`.  `df.copy()` appends a fresh cell; a column
assignment `obj['x'] = ...` writes the referenced cell in place. -/
abbrev Heap (α : Type) := List (DataFrame α)

/-- The empty frame, used as the out-of-range default of heap reads. -/
def emptyDF (α : Type) : DataFrame α := ⟨[], []⟩

/-- Embeds the statement sequence of `transformations.reflect` on the object
store: read the argument cell, allocate the copy, then (per flag) allocate the
rebuilt frames the source binds to the name `reflected`.  Returns the final
store and the reference the function returns. -/
def reflectImpl (h : Heap ℚ) (i : ℕ) (over_x over_y : Bool) : Heap ℚ × ℕ :=
  let df := h.getD i (emptyDF ℚ)
  let h1 := h ++ [df]
  let r1 := h.length
  let s2 : Heap ℚ × ℕ :=
    if over_y then
      let v := h1.getD r1 (emptyDF ℚ)
      (h1 ++ [⟨v.x.map (fun t => -1 * t), v.y⟩], h1.length)
    else (h1, r1)
  let s3 : Heap ℚ × ℕ :=
    if over_x then
      let v := s2.1.getD s2.2 (emptyDF ℚ)
      (s2.1 ++ [⟨v.x, v.y.map (fun t => -1 * t)⟩], s2.1.length)
    else s2
  s3

/-- Embeds the statement sequence of `transformations.translate` on the object
store: copy the argument, then update the copy's `x` column in place, then its
`y` column. -/
def translateImpl (h : Heap ℚ) (i : ℕ) (tx ty : ℚ) : Heap ℚ × ℕ :=
  let df := h.getD i (emptyDF ℚ)
  let h1 := h ++ [df]
  let j := h.length
  let v1 := h1.getD j (emptyDF ℚ)
  let h2 := h1.set j ⟨v1.x.map (fun t => t + tx), v1.y⟩
  let v2 := h2.getD j (emptyDF ℚ)
  let h3 := h2.set j ⟨v2.x, v2.y.map (fun t => t + ty)⟩
  (h3, j)

/-- Embeds the statement sequence of `transformations.scale` on the object
store. -/
def scaleImpl (h : Heap ℚ) (i : ℕ) (k : ℚ) : Heap ℚ × ℕ :=
  let df := h.getD i (emptyDF ℚ)
  let h1 := h ++ [df]
  let j := h.length
  let v1 := h1.getD j (emptyDF ℚ)
  let h2 := h1.set j ⟨v1.x.map (fun t => k * t), v1.y⟩
  let v2 := h2.getD j (emptyDF ℚ)
  let h3 := h2.set j ⟨v2.x, v2.y.map (fun t => k * t)⟩
  (h3, j)

/-- Embeds the statement sequence of `transformations.rotate` on the object
store: copy the argument, then assign its `x` column from the ORIGINAL cell's
columns, then its `y` column, again from the original cell (the source reads
`df['x']` and `df['y']`, not the partially updated copy). -/
noncomputable def rotateImpl (h : Heap ℝ) (i : ℕ) (rotation_dir : String)
    (angle : ℝ) : Heap ℝ × ℕ :=
  let angle := if pyLower rotation_dir ∉ Transformations.ccwNames then -angle else angle
  let theta := angle * Real.pi
  let df := h.getD i (emptyDF ℝ)
  let h1 := h ++ [df]
  let j := h.length
  let src1 := h1.getD i (emptyDF ℝ)
  let v1 := h1.getD j (emptyDF ℝ)
  let h2 := h1.set j
    ⟨List.zipWith (fun a b => a * Real.cos theta - b * Real.sin theta) src1.x src1.y,
     v1.y⟩
  let src2 := h2.getD i (emptyDF ℝ)
  let v2 := h2.getD j (emptyDF ℝ)
  let h3 := h2.set j
    ⟨v2.x,
     List.zipWith (fun a b => a * Real.sin theta + b * Real.cos theta) src2.x src2.y⟩
  (h3, j)

end PyHeap

namespace BasketballFeatures

/-- The attributes of `basketball_features.ThreePointLine` that its geometry
reads, accumulated by its `__init__` chain
(`ThreePointLine.__init__` → `BaseBasketballFeature.__init__`). -/
structure ThreePointLine where
  feature_width : ℚ
  basket_to_baseline_dist : ℚ
  court_length : ℚ
  court_width : ℚ
  feature_radius : ℚ
  feature_thickness : ℚ
  deriving DecidableEq, Repr

/-- Embeds the `ThreePointLine(...)` constructor chain.  Each `__init__` in
`src` only assigns its parameters to attributes and delegates upward;
modelled from the spec for the final link `BaseFeature.__init__`
(`sportypy/_base_classes/_base_feature.py`, not under `src/`): per the data
model of section 3, a Feature Descriptor is a record created once per surface
instantiation and immutable thereafter, so construction stores parameters and
performs no geometry.  Construction is therefore total and never raises. -/
def mkThreePointLine (feature_width basket_to_baseline_dist court_length
    court_width feature_radius feature_thickness : ℚ) :
    Except String ThreePointLine :=
  .ok ⟨feature_width, basket_to_baseline_dist, court_length, court_width,
       feature_radius, feature_thickness⟩

/-- Modelled from the spec: `BaseFeature.create_circle` is declared in
`sportypy/_base_classes/_base_feature.py`, which is not under `src/`; per
section 4.1 it is the circular arc generator taking a radius `r`: `npoints`
points evenly spaced in angle from `start*pi` to `end*pi`, each at
`(cx + r·cos θ, cy + r·sin θ)`. -/
noncomputable def createCircle (center : ℝ × ℝ) (npoints : ℕ)
    (r start stop : ℝ) : DataFrame ℝ :=
  let pts := linspace (start * Real.pi) (stop * Real.pi) npoints
  ⟨pts.map (fun t => center.1 + r * Real.cos t),
   pts.map (fun t => center.2 + r * Real.sin t)⟩

/-- Embeds `ThreePointLine._get_centered_feature` (lines 320-400 of
`basketball_features.py`): the outer arc angle is derived first via
`math.asin(start_y_outer / radius_outer)`, then the inner one, then the
five path fragments are concatenated.  Both the float divisions and the
`math.asin` calls keep their Python failure behavior; an out-of-domain
inverse sine aborts the computation before any point is produced.
`npoints` stands for the point count of the arcs drawn by `create_circle`. -/
noncomputable def ThreePointLine.getCenteredFeature (tp : ThreePointLine)
    (npoints : ℕ) : Except String (DataFrame ℝ) := do
  let start_y_outer : ℚ := tp.feature_width / 2
  let radius_outer : ℚ := tp.feature_radius
  let ratio_outer ← pyDiv start_y_outer radius_outer
  let asin_outer ← pyAsin ratio_outer
  let start_angle_outer : ℝ := asin_outer / Real.pi
  let end_angle_outer : ℝ := -start_angle_outer
  let start_y_inner : ℚ := start_y_outer - tp.feature_thickness
  let radius_inner : ℚ := tp.feature_radius - tp.feature_thickness
  let ratio_inner ← pyDiv start_y_inner radius_inner
  let asin_inner ← pyAsin ratio_inner
  let start_angle_inner : ℝ := -(asin_inner / Real.pi)
  let end_angle_inner : ℝ := -start_angle_inner
  let seg1 : DataFrame ℝ := ⟨[0], [(tp.feature_width : ℝ) / 2]⟩
  let arc_outer := createCircle ((tp.basket_to_baseline_dist : ℝ), 0) npoints
    (radius_outer : ℝ) start_angle_outer end_angle_outer
  let seg2 : DataFrame ℝ :=
    ⟨[0, 0],
     [-((tp.feature_width : ℝ) / 2),
      -((tp.feature_width : ℝ) / 2) + (tp.feature_thickness : ℝ)]⟩
  let arc_inner := createCircle ((tp.basket_to_baseline_dist : ℝ), 0) npoints
    (radius_inner : ℝ) start_angle_inner end_angle_inner
  let seg3 : DataFrame ℝ :=
    ⟨[0, 0],
     [(tp.feature_width : ℝ) / 2 - (tp.feature_thickness : ℝ),
      (tp.feature_width : ℝ) / 2]⟩
  pure (seg1.append (arc_outer.append (seg2.append (arc_inner.append seg3))))

end BasketballFeatures

namespace NcaaBb

/-- The `start_y` constant of `ncaa_bb.m_three_pt_line`:
`(25 * 12) - (40 + 1/8)` inches. -/
def m_start_y : ℚ := 25 * 12 - (40 + 1/8)

/-- The outer radius constant of `ncaa_bb.m_three_pt_line`:
`(22 * 12) + 1.75` inches. -/
def m_radius_outer : ℚ := 22 * 12 + 7/4

/-- The inner radius constant of `ncaa_bb.m_three_pt_line`. -/
def m_radius_inner : ℚ := 22 * 12 + 7/4 - 2

/-- The outer start-angle formula of `ncaa_bb.m_three_pt_line` (line 700):
`start_angle_outer = -math.asin(start_y / radius_outer) / np.pi`, as a
function of the derivation inputs. -/
noncomputable def m_start_angle_outer (start_y radius_outer : ℝ) : ℝ :=
  -Real.arcsin (start_y / radius_outer) / Real.pi

/-- The inner start-angle formula of `ncaa_bb.m_three_pt_line` (line 707):
`start_angle_inner = math.asin((start_y - 2) / radius_inner) / np.pi`. -/
noncomputable def m_start_angle_inner (start_y radius_inner : ℝ) : ℝ :=
  Real.arcsin ((start_y - 2) / radius_inner) / Real.pi

end NcaaBb

namespace Wnba

/-- The `start_y` constant of `wnba.three_point_line`: `22 * 12` inches. -/
def w_start_y : ℚ := 22 * 12

/-- The outer radius constant of `wnba.three_point_line`:
`(22 * 12) + 1.75` inches. -/
def w_radius_outer : ℚ := 22 * 12 + 7/4

/-- The inner radius constant of `wnba.three_point_line`. -/
def w_radius_inner : ℚ := 22 * 12 + 7/4 - 2

/-- The outer start-angle formula of `wnba.three_point_line` (line 1082):
`start_angle_outer = math.asin(start_y / radius_outer) / np.pi`. -/
noncomputable def three_point_line_start_angle_outer (start_y radius_outer : ℝ) : ℝ :=
  Real.arcsin (start_y / radius_outer) / Real.pi

/-- The inner start-angle formula of `wnba.three_point_line` (line 1089):
`start_angle_inner = -math.asin((start_y - 2) / radius_inner) / np.pi`. -/
noncomputable def three_point_line_start_angle_inner (start_y radius_inner : ℝ) : ℝ :=
  -Real.arcsin ((start_y - 2) / radius_inner) / Real.pi

end Wnba

/-- C2: the diamond generator is claimed to return the closed five-point
unit-diamond path for `height = 1, width = 1`.  The source body instead
references the unbound name `side_length`, so the call raises a `NameError`
and in particular never produces the path its own test
`test_create_shapes.test_diamond` expects. -/
theorem CreateShapes.diamond_raises_name_error :
    CreateShapes.diamond 1 1 (0, 0) =
      .error "NameError: name side_length is not defined" ∧
    CreateShapes.diamond 1 1 (0, 0) ≠ .ok CreateShapes.testDiamondExpected := by
  have h : CreateShapes.diamond 1 1 (0, 0) =
      .error "NameError: name side_length is not defined" := rfl
  exact ⟨h, by rw [h]; simp⟩

/-- C9: for every side length and center, `square` returns exactly the same
five-point closed path as `rectangle` on the matching extents; the unit square
centered at the origin starts at the bottom-left corner `(-0.5, -0.5)`, has
corners at `(±0.5, ±0.5)`, and equals
`rectangle(x_min = -0.5, x_max = 0.5, y_min = -0.5, y_max = 0.5)`. -/
theorem CreateShapes.square_is_rectangle :
    (∀ s cx cy : ℚ, CreateShapes.square s (cx, cy) =
      CreateShapes.rectangle (cx - s/2) (cx + s/2) (cy - s/2) (cy + s/2)) ∧
    CreateShapes.square 1 (0, 0) =
      ⟨[-1/2, 1/2, 1/2, -1/2, -1/2], [-1/2, -1/2, 1/2, 1/2, -1/2]⟩ ∧
    CreateShapes.square 1 (0, 0) =
      CreateShapes.rectangle (-1/2) (1/2) (-1/2) (1/2) := by
  refine ⟨fun s cx cy => rfl, ?_, ?_⟩
  · norm_num [CreateShapes.square]
  · norm_num [CreateShapes.square, CreateShapes.rectangle]

/-- C6: `reflect` negates the `x` column exactly when `over_y` is true and the
`y` column exactly when `over_x` is true (both flags may combine), and
applying the same reflection twice returns the input unchanged; in particular
`reflect (reflect P over_y) over_y = P`. -/
theorem Transformations.reflect_flags_and_involution :
    (∀ (df : DataFrame ℚ) (ox oy : Bool),
      Transformations.reflect df ox oy =
        ⟨if oy then df.x.map (fun t => -t) else df.x,
         if ox then df.y.map (fun t => -t) else df.y⟩) ∧
    (∀ (df : DataFrame ℚ) (ox oy : Bool),
      Transformations.reflect (Transformations.reflect df ox oy) ox oy = df) := by
  constructor
  · intro df ox oy
    cases ox <;> cases oy <;> simp [Transformations.reflect, neg_one_mul]
  · intro df ox oy
    cases ox <;> cases oy <;>
      simp [Transformations.reflect, List.map_map, Function.comp, neg_one_mul, neg_neg]

/-- C1: the surface `draw` loops claim to maintain `_feature_xlim` as the
running `[min of feature minima, max of feature maxima]`.  On a two-feature
surface whose first feature spans x ∈ [0, 10] and whose second spans
x ∈ [0, 5], the code stores `[0, 5]` — the update reads `self._feature_xlim[0]`
(the stored minimum) inside `max(...)` instead of `self._feature_xlim[1]`, so
the running maximum 10 is dropped; the extent the claim (and the code's own
comment, "the larger of its specified maximum and largest x value") requires
is `[0, 10]`. -/
theorem SurfaceDraw.draw_extents_drops_running_max :
    SurfaceDraw.drawExtents SurfaceDraw.demoFeatures = (some (0, 5), some (0, 1)) ∧
    SurfaceDraw.specXlim SurfaceDraw.demoFeatures = some (0, 10) := by
  decide

/-- The length of a `linspace` vector is its requested point count. -/
theorem linspace_length (a b : ℝ) (n : ℕ) : (linspace a b n).length = n := by
  rw [linspace, List.length_map, List.length_range]

/-- The `i`-th entry of a `linspace` vector. -/
theorem linspace_getD (a b : ℝ) (n i : ℕ) (hi : i < n) :
    (linspace a b n).getD i 0 = a + (i : ℝ) * ((b - a) / ((n : ℝ) - 1)) := by
  rw [linspace, List.getD_eq_getElem?_getD, List.getElem?_map, List.getElem?_range hi]
  rfl

/-- Reading a mapped list inside its bounds commutes with the map. -/
theorem getD_map_lt {α β : Type} (f : α → β) (l : List α) (i : ℕ)
    (hi : i < l.length) (d : α) (e : β) :
    (l.map f).getD i e = f (l.getD i d) := by
  induction l generalizing i with
  | nil => simp at hi
  | cons a l ih =>
    cases i with
    | zero => rfl
    | succ i => simpa using ih i (by simpa using hi)

/-- C4: the circle generator returns exactly `npoints` points; the `i`-th lies
at angle `start·π + i·(end·π − start·π)/(npoints − 1)` (uniform spacing, both
endpoint angles included), at `(cx + (d/2)·cos θᵢ, cy + (d/2)·sin θᵢ)`; for
`d ≥ 0` every point is at distance `d/2` from the center; and `start = end`
makes all `npoints` points coincide. -/
theorem CreateShapes.circle_spec (center : ℝ × ℝ) (npoints : ℕ) (d start stop : ℝ)
    (hn : 2 ≤ npoints) :
    ((CreateShapes.circle center npoints d start stop).x.length = npoints ∧
     (CreateShapes.circle center npoints d start stop).y.length = npoints) ∧
    (∀ i, i < npoints →
      (CreateShapes.circle center npoints d start stop).x.getD i 0 =
        center.1 + (d / 2) *
          Real.cos (start * Real.pi +
            (i : ℝ) * ((stop * Real.pi - start * Real.pi) / ((npoints : ℝ) - 1))) ∧
      (CreateShapes.circle center npoints d start stop).y.getD i 0 =
        center.2 + (d / 2) *
          Real.sin (start * Real.pi +
            (i : ℝ) * ((stop * Real.pi - start * Real.pi) / ((npoints : ℝ) - 1)))) ∧
    (0 ≤ d → ∀ i, i < npoints →
      Real.sqrt
        (((CreateShapes.circle center npoints d start stop).x.getD i 0 - center.1) ^ 2 +
         ((CreateShapes.circle center npoints d start stop).y.getD i 0 - center.2) ^ 2) =
        d / 2) ∧
    (start = stop → ∀ i, i < npoints →
      (CreateShapes.circle center npoints d start stop).x.getD i 0 =
        center.1 + (d / 2) * Real.cos (start * Real.pi) ∧
      (CreateShapes.circle center npoints d start stop).y.getD i 0 =
        center.2 + (d / 2) * Real.sin (start * Real.pi)) := by
  have hlen : (linspace (start * Real.pi) (stop * Real.pi) npoints).length = npoints :=
    linspace_length _ _ _
  have hx : ∀ i, i < npoints →
      (CreateShapes.circle center npoints d start stop).x.getD i 0 =
        center.1 + (d / 2) * Real.cos (start * Real.pi +
          (i : ℝ) * ((stop * Real.pi - start * Real.pi) / ((npoints : ℝ) - 1))) := by
    intro i hi
    show ((linspace (start * Real.pi) (stop * Real.pi) npoints).map
      (fun t => center.1 + (d / 2) * Real.cos t)).getD i 0 = _
    rw [getD_map_lt _ _ i (by rw [hlen]; exact hi) 0, linspace_getD _ _ _ _ hi]
  have hy : ∀ i, i < npoints →
      (CreateShapes.circle center npoints d start stop).y.getD i 0 =
        center.2 + (d / 2) * Real.sin (start * Real.pi +
          (i : ℝ) * ((stop * Real.pi - start * Real.pi) / ((npoints : ℝ) - 1))) := by
    intro i hi
    show ((linspace (start * Real.pi) (stop * Real.pi) npoints).map
      (fun t => center.2 + (d / 2) * Real.sin t)).getD i 0 = _
    rw [getD_map_lt _ _ i (by rw [hlen]; exact hi) 0, linspace_getD _ _ _ _ hi]
  refine ⟨⟨by simp [CreateShapes.circle, hlen], by simp [CreateShapes.circle, hlen]⟩,
          fun i hi => ⟨hx i hi, hy i hi⟩, ?_, ?_⟩
  · intro hd i hi
    rw [hx i hi, hy i hi]
    set t := start * Real.pi +
      (i : ℝ) * ((stop * Real.pi - start * Real.pi) / ((npoints : ℝ) - 1)) with ht
    have h1 : (center.1 + d / 2 * Real.cos t - center.1) ^ 2 +
        (center.2 + d / 2 * Real.sin t - center.2) ^ 2 = (d / 2) ^ 2 := by
      linear_combination (d / 2) ^ 2 * (Real.sin_sq_add_cos_sq t)
    rw [h1, Real.sqrt_sq (by positivity)]
  · intro hse i hi
    subst hse
    rw [hx i hi, hy i hi]
    constructor <;> ring_nf

/-- C4 witness: the circle generator at `center (0,0), npoints 2, d 2,
start 0, end 1` satisfies the specification; in particular it returns
exactly two points. -/
theorem CreateShapes.circle_spec_witness :
    (CreateShapes.circle (0, 0) 2 2 0 1).x.length = 2 :=
  (CreateShapes.circle_spec (0, 0) 2 2 0 1 (by decide)).1.1

/-- Undoing one rotation step entrywise: multiplying out the composition of
the rotation matrix for `(c, s)` with the one for `(c, -s)` restores both
columns, for columns of equal length. -/
theorem rotInvAux (c s : ℝ) (h1 : s ^ 2 + c ^ 2 = 1) :
    ∀ xs ys : List ℝ, xs.length = ys.length →
      (List.zipWith (fun a b => a * c - b * (-s))
          (List.zipWith (fun a b => a * c - b * s) xs ys)
          (List.zipWith (fun a b => a * s + b * c) xs ys) = xs ∧
       List.zipWith (fun a b => a * (-s) + b * c)
          (List.zipWith (fun a b => a * c - b * s) xs ys)
          (List.zipWith (fun a b => a * s + b * c) xs ys) = ys) := by
  intro xs
  induction xs with
  | nil => intro ys h; cases ys <;> simp_all
  | cons p xs ih =>
    intro ys h
    cases ys with
    | nil => simp at h
    | cons q ys =>
      have hlen : xs.length = ys.length := by simpa using h
      obtain ⟨ih1, ih2⟩ := ih ys hlen
      refine ⟨?_, ?_⟩ <;> simp only [List.zipWith_cons_cons, List.cons.injEq]
      · exact ⟨by linear_combination p * h1, ih1⟩
      · exact ⟨by linear_combination q * h1, ih2⟩

/-- C7: `rotate` applies the rotation matrix with `θ = angle·π` about the
origin — negated for the clockwise direction —, a rotation by `θ` composed
with a rotation by `−θ` returns the original frame (for equal-length
columns), and the point `(0, 1)` rotated by `angle = 0.5` goes to `(-1, 0)`
counterclockwise and to `(1, 0)` clockwise. -/
theorem Transformations.rotate_spec (df : DataFrame ℝ) (a : ℝ)
    (hlen : df.x.length = df.y.length) :
    (Transformations.rotate df "ccw" a =
      ⟨List.zipWith (fun p q => p * Real.cos (a * Real.pi) - q * Real.sin (a * Real.pi))
         df.x df.y,
       List.zipWith (fun p q => p * Real.sin (a * Real.pi) + q * Real.cos (a * Real.pi))
         df.x df.y⟩) ∧
    (Transformations.rotate df "cw" a =
      ⟨List.zipWith (fun p q => p * Real.cos (-(a * Real.pi)) - q * Real.sin (-(a * Real.pi)))
         df.x df.y,
       List.zipWith (fun p q => p * Real.sin (-(a * Real.pi)) + q * Real.cos (-(a * Real.pi)))
         df.x df.y⟩) ∧
    (Transformations.rotate (Transformations.rotate df "ccw" a) "ccw" (-a) = df) ∧
    (Transformations.rotate ⟨[0], [1]⟩ "ccw" (1/2) = ⟨[-1], [0]⟩) ∧
    (Transformations.rotate ⟨[0], [1]⟩ "cw" (1/2) = ⟨[1], [0]⟩) := by
  have hccw : ¬(pyLower "ccw" ∉ Transformations.ccwNames) := by decide
  have hcw : pyLower "cw" ∉ Transformations.ccwNames := by decide
  refine ⟨?_, ?_, ?_, ?_, ?_⟩
  · rw [Transformations.rotate, if_neg hccw]
  · rw [Transformations.rotate, if_pos hcw, neg_mul]
  · obtain ⟨xs, ys⟩ := df
    simp only [Transformations.rotate, if_neg hccw, neg_mul]
    rw [Real.cos_neg, Real.sin_neg]
    have := rotInvAux (Real.cos (a * Real.pi)) (Real.sin (a * Real.pi))
      (Real.sin_sq_add_cos_sq (a * Real.pi)) xs ys hlen
    exact DataFrame.mk.injEq .. ▸ ⟨this.1, this.2⟩
  · rw [Transformations.rotate, if_neg hccw]
    simp [inv_mul_eq_div]
  · rw [Transformations.rotate, if_pos hcw]
    simp [neg_mul, inv_mul_eq_div]

/-- C7 witness: rotating the single point `(0, 1)` counterclockwise by
`angle = 0.5` (a quarter turn) yields `(-1, 0)`. -/
theorem Transformations.rotate_spec_witness :
    Transformations.rotate ⟨[0], [1]⟩ "ccw" (1/2) = ⟨[-1], [0]⟩ :=
  (Transformations.rotate_spec ⟨[0], [1]⟩ (1/2) rfl).2.2.2.1

/-- C10: any direction string whose lower-cased form is not one of `ccw`,
`counter`, `counterclockwise` makes `rotate` negate the angle, i.e. behave
exactly as a clockwise rotation `rotate df "ccw" (-angle)`; nothing is
rejected. -/
theorem Transformations.rotate_unrecognized_dir_is_cw (df : DataFrame ℝ)
    (w : String) (a : ℝ) (h : pyLower w ∉ Transformations.ccwNames) :
    Transformations.rotate df w a = Transformations.rotate df "ccw" (-a) := by
  rw [Transformations.rotate, if_pos h, Transformations.rotate,
      if_neg (by decide : ¬(pyLower "ccw" ∉ Transformations.ccwNames))]

/-- C10 witness: the unrecognized direction string `anticlockwise` is
silently treated as clockwise. -/
theorem Transformations.rotate_unrecognized_dir_witness :
    Transformations.rotate ⟨[1], [0]⟩ "anticlockwise" (1/2) =
      Transformations.rotate ⟨[1], [0]⟩ "ccw" (-(1/2)) :=
  Transformations.rotate_unrecognized_dir_is_cw ⟨[1], [0]⟩ "anticlockwise" (1/2)
    (by decide)

/-- C5: the men's NCAA three-point-line derivation and the WNBA three-point
line derivation use opposite sign conventions for the same angle formulas:
for all inputs, `m_three_pt_line`'s outer start angle is the negation of the
WNBA's outer start angle, and likewise for the inner start angle; at the
repositories' own rule-book constants the two formulas give different
values, so the formulas are negations of each other rather than equal. -/
theorem NcaaBb.three_point_angle_sign_flip :
    (∀ sy r : ℝ, NcaaBb.m_start_angle_outer sy r =
      -(Wnba.three_point_line_start_angle_outer sy r)) ∧
    (∀ sy r : ℝ, NcaaBb.m_start_angle_inner sy r =
      -(Wnba.three_point_line_start_angle_inner sy r)) ∧
    NcaaBb.m_start_angle_outer (NcaaBb.m_start_y : ℝ) (NcaaBb.m_radius_outer : ℝ) ≠
      Wnba.three_point_line_start_angle_outer (NcaaBb.m_start_y : ℝ)
        (NcaaBb.m_radius_outer : ℝ) ∧
    NcaaBb.m_start_angle_inner (Wnba.w_start_y : ℝ) (Wnba.w_radius_inner : ℝ) ≠
      Wnba.three_point_line_start_angle_inner (Wnba.w_start_y : ℝ)
        (Wnba.w_radius_inner : ℝ) := by
  have hpi := Real.pi_pos
  refine ⟨fun sy r => by
            rw [NcaaBb.m_start_angle_outer, Wnba.three_point_line_start_angle_outer]
            ring,
          fun sy r => by
            rw [NcaaBb.m_start_angle_inner, Wnba.three_point_line_start_angle_inner]
            ring, ?_, ?_⟩
  · intro heq
    rw [NcaaBb.m_start_angle_outer, Wnba.three_point_line_start_angle_outer] at heq
    have harg : (0 : ℝ) < (NcaaBb.m_start_y : ℝ) / (NcaaBb.m_radius_outer : ℝ) := by
      rw [NcaaBb.m_start_y, NcaaBb.m_radius_outer]
      push_cast
      norm_num
    have hpos := Real.arcsin_pos.mpr harg
    field_simp at heq
    nlinarith [mul_pos hpos hpi]
  · intro heq
    rw [NcaaBb.m_start_angle_inner, Wnba.three_point_line_start_angle_inner] at heq
    have harg : (0 : ℝ) <
        ((Wnba.w_start_y : ℝ) - 2) / (Wnba.w_radius_inner : ℝ) := by
      rw [Wnba.w_start_y, Wnba.w_radius_inner]
      push_cast
      norm_num
    have hpos := Real.arcsin_pos.mpr harg
    field_simp at heq
    nlinarith [mul_pos hpos hpi]

/-- C3 counterexample: at `feature_width = 44` and `feature_radius = 10`
(so `feature_width/2 > feature_radius`), constructing the `ThreePointLine`
does NOT fail — the constructor chain only stores parameters and returns the
feature — while the `asin` domain error is raised only when
`_get_centered_feature` later computes the geometry. -/
theorem BasketballFeatures.three_point_line_construction_total :
    BasketballFeatures.mkThreePointLine 44 (-21/4) 94 50 10 2 =
      .ok ⟨44, -21/4, 94, 50, 10, 2⟩ ∧
    BasketballFeatures.ThreePointLine.getCenteredFeature
        ⟨44, -21/4, 94, 50, 10, 2⟩ 1000 =
      .error "ValueError: math domain error" := by
  refine ⟨rfl, ?_⟩
  have h1 : pyDiv ((44 : ℚ) / 2) 10 = .ok (11/5) := by
    rw [pyDiv, if_neg (by norm_num)]
    norm_num
  have h2 : pyAsin (11/5) = .error "ValueError: math domain error" := by
    rw [pyAsin, if_neg]
    rw [abs_of_pos (by norm_num : (0 : ℚ) < 11/5)]
    norm_num
  simp [BasketballFeatures.ThreePointLine.getCenteredFeature, h1, h2,
        Except.bind, Except.map, Bind.bind, Functor.map]

/-- C3 amended: for inconsistent parameters (`feature_width/2` exceeding a
positive `feature_radius`), construction of the `ThreePointLine` itself always
succeeds — the constructors only store parameters — and the out-of-domain
`asin` is detected when the feature's point sequence is computed:
`_get_centered_feature` aborts with Python's `ValueError: math domain error`
before any point is produced, so no point sequence containing NaN coordinates
is ever returned. -/
theorem BasketballFeatures.three_point_line_domain_error_at_geometry
    (w b cl cw r t : ℚ) (n : ℕ) (hr : 0 < r) (hw : r < w / 2) :
    BasketballFeatures.mkThreePointLine w b cl cw r t = .ok ⟨w, b, cl, cw, r, t⟩ ∧
    BasketballFeatures.ThreePointLine.getCenteredFeature ⟨w, b, cl, cw, r, t⟩ n =
      .error "ValueError: math domain error" := by
  refine ⟨rfl, ?_⟩
  have h1 : pyDiv (w / 2) r = .ok (w / 2 / r) := by
    rw [pyDiv, if_neg hr.ne']
  have hgt : 1 < w / 2 / r := (one_lt_div hr).mpr hw
  have h2 : pyAsin (w / 2 / r) = .error "ValueError: math domain error" := by
    rw [pyAsin, if_neg]
    rw [abs_of_pos (lt_trans one_pos hgt)]
    exact not_le.mpr hgt
  simp [BasketballFeatures.ThreePointLine.getCenteredFeature, h1, h2,
        Except.bind, Except.map, Bind.bind, Functor.map]

/-- C3 witness: the NBA-sized three-point width `44` with an inconsistent
radius `10` makes `_get_centered_feature` fail with the math domain error. -/
theorem BasketballFeatures.three_point_line_domain_error_witness :
    BasketballFeatures.ThreePointLine.getCenteredFeature
        ⟨44, -21/4, 94, 50, 10, 2⟩ 500 =
      .error "ValueError: math domain error" :=
  (BasketballFeatures.three_point_line_domain_error_at_geometry
    44 (-21/4) 94 50 10 2 500 (by norm_num) (by norm_num)).2

/-- Reading an extended store below the old length sees the old cells. -/
theorem getD_append_lt {α : Type} (l : List α) (d e : α) (m : ℕ)
    (hm : m < l.length) : (l ++ [d]).getD m e = l.getD m e := by
  induction l generalizing m with
  | nil => simp at hm
  | cons a l ih =>
    cases m with
    | zero => rfl
    | succ m => simpa using ih m (by simpa using hm)

/-- Reading the freshly appended cell of a store. -/
theorem getD_append_len {α : Type} (l : List α) (d e : α) :
    (l ++ [d]).getD l.length e = d := by
  induction l with
  | nil => rfl
  | cons a l ih => simpa using ih

/-- Reading the freshly appended cell, when the index is only propositionally
the old length. -/
theorem getD_append_at {α : Type} (l : List α) (d e : α) (m : ℕ)
    (hm : m = l.length) : (l ++ [d]).getD m e = d := by
  subst hm
  exact getD_append_len l d e

/-- An in-place store update is invisible at every other reference. -/
theorem getD_set_ne {α : Type} (l : List α) (j m : ℕ) (v e : α)
    (hne : m ≠ j) : (l.set j v).getD m e = l.getD m e := by
  induction l generalizing j m with
  | nil => simp
  | cons a l ih =>
    cases j with
    | zero =>
      cases m with
      | zero => exact absurd rfl hne
      | succ m => rfl
    | succ j =>
      cases m with
      | zero => rfl
      | succ m => simpa using ih j m (by omega)

/-- An in-place store update is visible at the updated reference. -/
theorem getD_set_self {α : Type} (l : List α) (j : ℕ) (v e : α)
    (hj : j < l.length) : (l.set j v).getD j e = v := by
  induction l generalizing j with
  | nil => simp at hj
  | cons a l ih =>
    cases j with
    | zero => rfl
    | succ j => simpa using ih j (by simpa using hj)

/-- The store effect of `reflect` with both flags off: one copy. -/
theorem PyHeap.reflectImpl_ff (h : PyHeap.Heap ℚ) (i : ℕ) :
    PyHeap.reflectImpl h i false false =
      (h ++ [h.getD i (PyHeap.emptyDF ℚ)], h.length) := rfl

/-- The store effect of `reflect` over the y axis only. -/
theorem PyHeap.reflectImpl_ft (h : PyHeap.Heap ℚ) (i : ℕ) :
    PyHeap.reflectImpl h i false true =
      (h ++ [h.getD i (PyHeap.emptyDF ℚ)] ++
         [⟨(h.getD i (PyHeap.emptyDF ℚ)).x.map (fun t => -1 * t),
           (h.getD i (PyHeap.emptyDF ℚ)).y⟩],
       h.length + 1) := by
  simp only [PyHeap.reflectImpl, if_true, if_false]
  rw [getD_append_len]
  simp

/-- The store effect of `reflect` over the x axis only. -/
theorem PyHeap.reflectImpl_tf (h : PyHeap.Heap ℚ) (i : ℕ) :
    PyHeap.reflectImpl h i true false =
      (h ++ [h.getD i (PyHeap.emptyDF ℚ)] ++
         [⟨(h.getD i (PyHeap.emptyDF ℚ)).x,
           (h.getD i (PyHeap.emptyDF ℚ)).y.map (fun t => -1 * t)⟩],
       h.length + 1) := by
  simp only [PyHeap.reflectImpl, if_true, if_false]
  rw [getD_append_len]
  simp

/-- The store effect of `reflect` over both axes. -/
theorem PyHeap.reflectImpl_tt (h : PyHeap.Heap ℚ) (i : ℕ) :
    PyHeap.reflectImpl h i true true =
      (h ++ [h.getD i (PyHeap.emptyDF ℚ)] ++
         [⟨(h.getD i (PyHeap.emptyDF ℚ)).x.map (fun t => -1 * t),
           (h.getD i (PyHeap.emptyDF ℚ)).y⟩] ++
         [⟨(h.getD i (PyHeap.emptyDF ℚ)).x.map (fun t => -1 * t),
           (h.getD i (PyHeap.emptyDF ℚ)).y.map (fun t => -1 * t)⟩],
       h.length + 2) := by
  simp only [PyHeap.reflectImpl, if_true, if_false]
  rw [getD_append_len, getD_append_at _ _ _ _ rfl]
  simp

/-- The store effect of `rotate`: one fresh cell holding the pure rotation of
the argument cell, everything else by in-place updates of that fresh cell. -/
theorem PyHeap.rotateImpl_eq (h : PyHeap.Heap ℝ) (i : ℕ) (w : String) (a : ℝ)
    (hi : i < h.length) :
    PyHeap.rotateImpl h i w a =
      ((h ++ [h.getD i (PyHeap.emptyDF ℝ)]).set h.length
        (Transformations.rotate (h.getD i (PyHeap.emptyDF ℝ)) w a), h.length) := by
  simp only [PyHeap.rotateImpl, Transformations.rotate]
  rw [getD_append_len]
  rw [getD_append_lt _ _ _ i hi]
  rw [getD_set_self _ _ _ _ (by simp)]
  rw [getD_set_ne _ _ _ _ _ (by omega)]
  rw [getD_append_lt _ _ _ i hi]
  rw [List.set_set]

/-- C8: running any of the four transform operators on the object store
leaves every pre-existing frame — in particular the input frame — unchanged,
returns a reference to a freshly allocated frame (its index is at least the
old store length), and that fresh frame holds exactly the pure transform of
the input frame. -/
theorem PyHeap.transforms_pure_no_mutation
    (h : PyHeap.Heap ℚ) (hr : PyHeap.Heap ℝ) (i ir : ℕ) (ox oy : Bool)
    (tx ty k : ℚ) (w : String) (a : ℝ)
    (hi : i < h.length) (hir : ir < hr.length) :
    ((∀ m, m < h.length →
       (PyHeap.reflectImpl h i ox oy).1.getD m (PyHeap.emptyDF ℚ) =
         h.getD m (PyHeap.emptyDF ℚ)) ∧
     h.length ≤ (PyHeap.reflectImpl h i ox oy).2 ∧
     (PyHeap.reflectImpl h i ox oy).1.getD (PyHeap.reflectImpl h i ox oy).2
         (PyHeap.emptyDF ℚ) =
       Transformations.reflect (h.getD i (PyHeap.emptyDF ℚ)) ox oy) ∧
    ((∀ m, m < h.length →
       (PyHeap.translateImpl h i tx ty).1.getD m (PyHeap.emptyDF ℚ) =
         h.getD m (PyHeap.emptyDF ℚ)) ∧
     h.length ≤ (PyHeap.translateImpl h i tx ty).2 ∧
     (PyHeap.translateImpl h i tx ty).1.getD (PyHeap.translateImpl h i tx ty).2
         (PyHeap.emptyDF ℚ) =
       Transformations.translate (h.getD i (PyHeap.emptyDF ℚ)) tx ty) ∧
    ((∀ m, m < h.length →
       (PyHeap.scaleImpl h i k).1.getD m (PyHeap.emptyDF ℚ) =
         h.getD m (PyHeap.emptyDF ℚ)) ∧
     h.length ≤ (PyHeap.scaleImpl h i k).2 ∧
     (PyHeap.scaleImpl h i k).1.getD (PyHeap.scaleImpl h i k).2
         (PyHeap.emptyDF ℚ) =
       Transformations.scale (h.getD i (PyHeap.emptyDF ℚ)) k) ∧
    ((∀ m, m < hr.length →
       (PyHeap.rotateImpl hr ir w a).1.getD m (PyHeap.emptyDF ℝ) =
         hr.getD m (PyHeap.emptyDF ℝ)) ∧
     hr.length ≤ (PyHeap.rotateImpl hr ir w a).2 ∧
     (PyHeap.rotateImpl hr ir w a).1.getD (PyHeap.rotateImpl hr ir w a).2
         (PyHeap.emptyDF ℝ) =
       Transformations.rotate (hr.getD ir (PyHeap.emptyDF ℝ)) w a) := by
  refine ⟨?_, ?_, ?_, ?_⟩
  · cases ox <;> cases oy
    · rw [PyHeap.reflectImpl_ff]
      exact ⟨fun m hm => getD_append_lt _ _ _ m hm, le_refl _,
             getD_append_len _ _ _⟩
    · rw [PyHeap.reflectImpl_ft]
      refine ⟨fun m hm => ?_, by simp, ?_⟩
      · rw [getD_append_lt _ _ _ m (by simp; omega), getD_append_lt _ _ _ m hm]
      · rw [getD_append_at _ _ _ _ (by simp)]
        rfl
    · rw [PyHeap.reflectImpl_tf]
      refine ⟨fun m hm => ?_, by simp, ?_⟩
      · rw [getD_append_lt _ _ _ m (by simp; omega), getD_append_lt _ _ _ m hm]
      · rw [getD_append_at _ _ _ _ (by simp)]
        rfl
    · rw [PyHeap.reflectImpl_tt]
      refine ⟨fun m hm => ?_, by simp, ?_⟩
      · rw [getD_append_lt _ _ _ m (by simp; omega),
            getD_append_lt _ _ _ m (by simp; omega),
            getD_append_lt _ _ _ m hm]
      · rw [getD_append_at _ _ _ _ (by simp)]
        rfl
  · refine ⟨fun m hm => ?_, le_refl _, ?_⟩
    · simp only [PyHeap.translateImpl]
      rw [getD_set_ne _ _ _ _ _ (by omega), getD_set_ne _ _ _ _ _ (by omega),
          getD_append_lt _ _ _ m hm]
    · simp only [PyHeap.translateImpl]
      rw [getD_set_self _ _ _ _ (by simp)]
      rw [getD_set_self _ _ _ _ (by simp)]
      rw [getD_append_len]
      rfl
  · refine ⟨fun m hm => ?_, le_refl _, ?_⟩
    · simp only [PyHeap.scaleImpl]
      rw [getD_set_ne _ _ _ _ _ (by omega), getD_set_ne _ _ _ _ _ (by omega),
          getD_append_lt _ _ _ m hm]
    · simp only [PyHeap.scaleImpl]
      rw [getD_set_self _ _ _ _ (by simp)]
      rw [getD_set_self _ _ _ _ (by simp)]
      rw [getD_append_len]
      rfl
  · rw [PyHeap.rotateImpl_eq _ _ _ _ hir]
    refine ⟨fun m hm => ?_, le_refl _, ?_⟩
    · rw [getD_set_ne _ _ _ _ _ (by omega), getD_append_lt _ _ _ m hm]
    · rw [getD_set_self _ _ _ _ (by simp)]

/-- C8 witness: on a one-frame store holding `x = [1], y = [2]`, translating
by `(3, 4)` leaves the input frame (cell 0) unchanged. -/
theorem PyHeap.transforms_pure_witness :
    (PyHeap.translateImpl [⟨[1], [2]⟩] 0 3 4).1.getD 0 (PyHeap.emptyDF ℚ) =
      ([⟨[1], [2]⟩] : PyHeap.Heap ℚ).getD 0 (PyHeap.emptyDF ℚ) :=
  ((PyHeap.transforms_pure_no_mutation [⟨[1], [2]⟩] [⟨[1], [2]⟩] 0 0 true true
      3 4 5 "cw" 0 (by decide) (by decide)).2.1).1 0 (by decide)
